import Mathlib

/-!
Shallow embedding of the cached external-data aggregation layer of the
aviation dashboard (`app.py`): the `timed_cache` decorator, the Strava
token provider, the source fetchers with their fallback records, and the
pure activity aggregators.

Modelling conventions: time is integer seconds; Python dicts with
optional keys become structures with `Option` fields; an HTTP call's
outcome (a status code plus a parsed JSON body, or a raised
exception/unparseable body) is an explicit input to each fetcher;
Python floats are rationals; `datetime.now()` and the derived
`month_start` are explicit parameters.
-/

/-- A JSON field value that is either a string or a number
(e.g. a METAR readout that is a value or the sentinel "N/A"). -/
inductive FVal where
  | str (s : String)
  | num (q : ℚ)
deriving DecidableEq

/-- Python truthiness of an optional string: `None` and `""` are falsy
(`if not STRAVA_ACCESS_TOKEN`, `if not token`). -/
def pyFalsy : Option String → Bool
  | none => true
  | some s => s == ""

/-- Python `int()` truncation toward zero on a rational. -/
def pyInt (q : ℚ) : Int := if 0 ≤ q then ⌊q⌋ else -⌊-q⌋

/-- Python `round` to the nearest integer, halves to even
(decimal model of rounding a float). -/
def pyRound (q : ℚ) : Int :=
  let f := ⌊q⌋
  let r := q - f
  if r < 1/2 then f else if 1/2 < r then f + 1 else if f % 2 = 0 then f else f + 1

/-- Two-digit zero-padded rendering: the `{:02d}` format field
(also `strftime` `%H`/`%M`). -/
def pad2 (n : Int) : String := if 0 ≤ n ∧ n < 10 then "0" ++ toString n else toString n

/-- `f"{x:.1f}"` one-decimal formatting (decimal model of Python float
formatting; only used on non-negative distances). -/
def fmt1 (q : ℚ) : String :=
  let n := pyRound (q * 10)
  toString (n / 10) ++ "." ++ toString (n % 10).natAbs

/-- Python `max(iterable, default=d)` over rationals. -/
def pyMax (l : List ℚ) (d : ℚ) : ℚ :=
  match l with
  | [] => d
  | x :: xs => xs.foldl max x

/-! ## The `timed_cache` decorator (`app.py` lines 50-75) -/

/-- The per-wrapped-function cache dict of `timed_cache`: the rendered
argument key (`str(args) + str(kwargs)`) maps to the memoized result and
its storage timestamp (`cache[key] = (result, now)`). -/
abbrev CacheMap (α : Type) : Type := String → Option (α × Int)

/-- `wrapper.clear_cache`, i.e. `cache.clear()`. -/
def clear_cache {α : Type} (_ : CacheMap α) : CacheMap α := fun _ => none

/-- One call through the `timed_cache(seconds=ttl)` wrapper at time `now`
for argument key `key`.  Returns the call's result, the cache dict after
the call, and whether the underlying function was invoked. -/
def timedCall {α : Type} (func : String → α) (ttl : Int) (cache : CacheMap α)
    (key : String) (now : Int) : α × CacheMap α × Bool :=
  match cache key with
  | some (result, ts) =>
      if now - ts < ttl then (result, cache, false)
      else (func key, Function.update cache key (some (func key, now)), true)
  | none => (func key, Function.update cache key (some (func key, now)), true)

/-! ## Strava token provider (`app.py` lines 154-198) -/

/-- The process-wide `STRAVA_ACCESS_TOKEN` / `STRAVA_TOKEN_EXPIRY` pair. -/
structure TokenState where
  access : Option String
  expiry : Int
deriving DecidableEq

/-- The `STRAVA_CLIENT_ID` / `STRAVA_CLIENT_SECRET` / `STRAVA_REFRESH_TOKEN`
environment configuration. -/
structure StravaConfig where
  client_id : String
  client_secret : String
  refresh_token : String
deriving DecidableEq

/-- Parsed JSON body of the token-exchange response; a missing key makes
the corresponding `token_data[...]` access raise `KeyError`. -/
structure TokenBody where
  access_token : Option String
  expires_at : Option Int
deriving DecidableEq

/-- Outcome of the `httpx.post` to the token endpoint: a status code with
the parsed body (`none` if `resp.json()` raises), or a raised transport
exception. -/
inductive RefreshOutcome where
  | resp (code : Nat) (body : Option TokenBody)
  | exn
deriving DecidableEq

/-- Return value and resulting global state of `refresh_strava_token`. -/
structure RefreshResult where
  token : Option String
  state : TokenState
deriving DecidableEq

/-- `refresh_strava_token()`.  Note the source assigns
`STRAVA_ACCESS_TOKEN = token_data['access_token']` *before* reading
`token_data['expires_at']`, so a 200 body carrying only `access_token`
mutates the stored token and then raises, which the `except` turns into
a `None` return. -/
def refresh_strava_token (cfg : StravaConfig) (out : RefreshOutcome)
    (st : TokenState) : RefreshResult :=
  if cfg.refresh_token == "" then ⟨none, st⟩
  else
    match out with
    | .exn => ⟨none, st⟩
    | .resp code body =>
        if code = 200 then
          match body with
          | none => ⟨none, st⟩
          | some b =>
              match b.access_token with
              | none => ⟨none, st⟩
              | some tok =>
                  match b.expires_at with
                  | none => ⟨none, { st with access := some tok }⟩
                  | some e => ⟨some tok, { access := some tok, expiry := e }⟩
        else ⟨none, st⟩

/-- Return value, resulting state and number of refresh calls made by
`get_strava_token`. -/
structure TokenTrace where
  token : Option String
  state : TokenState
  refreshes : Nat
deriving DecidableEq

/-- `get_strava_token()`: refresh when the stored token is falsy or
`current_time >= STRAVA_TOKEN_EXPIRY - 300`, else return the stored token. -/
def get_strava_token (cfg : StravaConfig) (st : TokenState) (now : Int)
    (out : RefreshOutcome) : TokenTrace :=
  if pyFalsy st.access = true ∨ st.expiry - 300 ≤ now then
    let r := refresh_strava_token cfg out st
    ⟨r.token, r.state, 1⟩
  else ⟨st.access, st, 0⟩

/-! ## Activity fetch (`app.py` lines 201-236) -/

/-- A raw Strava activity record.  `start_date` is the parsed start time
in epoch seconds of the zone the dates are taken in;
`total_elevation_gain` is read with `.get(..., 0)`, the other keys are
required. -/
structure Activity where
  start_date : Int
  distance : ℚ
  moving_time : Int
  type : String
  total_elevation_gain : Option ℚ
deriving DecidableEq

/-- Outcome of an activities GET: status code with parsed body, or a
raised exception (also covering an unparseable body). -/
inductive HttpResult where
  | resp (code : Nat) (body : List Activity)
  | exn
deriving DecidableEq

/-- Result, final token state, number of token-refresh calls and number
of activity GET calls performed by one `fetch_strava_activities` run. -/
structure FetchTrace where
  result : Option (List Activity)
  state : TokenState
  refreshes : Nat
  gets : Nat
deriving DecidableEq

/-- `fetch_strava_activities()` (underlying function, before the
`timed_cache` wrapper).  `tokenOut` feeds a refresh performed inside
`get_strava_token`; `first` is the first GET's outcome; on a 401 the
fetcher refreshes once (outcome `retryOut`) and retries once (`second`). -/
def fetch_strava_activities (cfg : StravaConfig) (st : TokenState) (now : Int)
    (tokenOut : RefreshOutcome) (first : HttpResult) (retryOut : RefreshOutcome)
    (second : HttpResult) : FetchTrace :=
  let g := get_strava_token cfg st now tokenOut
  if pyFalsy g.token then ⟨none, g.state, g.refreshes, 0⟩
  else
    match first with
    | .exn => ⟨none, g.state, g.refreshes, 1⟩
    | .resp code body =>
        if code = 200 then ⟨some body, g.state, g.refreshes, 1⟩
        else if code = 401 then
          let r := refresh_strava_token cfg retryOut g.state
          if pyFalsy r.token then ⟨none, r.state, g.refreshes + 1, 1⟩
          else
            match second with
            | .exn => ⟨none, r.state, g.refreshes + 1, 2⟩
            | .resp c2 b2 =>
                if c2 = 200 then ⟨some b2, r.state, g.refreshes + 1, 2⟩
                else ⟨none, r.state, g.refreshes + 1, 2⟩
        else ⟨none, g.state, g.refreshes, 1⟩

/-! ## Streak calculation (`app.py` lines 263-288) -/

/-- Calendar day ordinal of an epoch timestamp (`.date()` extraction). -/
def dateOf (t : Int) : Int := t / 86400

/-- Stable descending insertion used to model
`sorted(activities, key=start time, reverse=True)`. -/
def insertDesc (a : Activity) : List Activity → List Activity
  | [] => [a]
  | b :: rest =>
      if b.start_date < a.start_date then a :: b :: rest else b :: insertDesc a rest

/-- `sorted(activities, key=lambda x: start time, reverse=True)`. -/
def sortDesc (l : List Activity) : List Activity :=
  l.foldl (fun acc a => insertDesc a acc) []

/-- The walk of `calculate_streak`: count while the activity's date equals
the expected day, break when it falls strictly before it, skip otherwise. -/
def streakLoop (check : Int) (streak : Nat) : List Activity → Nat
  | [] => streak
  | a :: rest =>
      if dateOf a.start_date = check then streakLoop (check - 1) (streak + 1) rest
      else if dateOf a.start_date < check then streak
      else streakLoop check streak rest

/-- `calculate_streak(activities)`, with "today" (the value of
`datetime.now(tz).date()`) passed explicitly. -/
def calculate_streak (today : Int) (activities : List Activity) : Nat :=
  match activities with
  | [] => 0
  | _ => streakLoop today 0 (sortDesc activities)

/-! ## Formatting helpers (`app.py` lines 239-260) -/

/-- `format_time(seconds)`: `H:MM:SS`, or `M:SS` when no full hour. -/
def format_time (seconds : Int) : String :=
  let hours := seconds / 3600
  let minutes := (seconds % 3600) / 60
  let secs := seconds % 60
  if 0 < hours then toString hours ++ ":" ++ pad2 minutes ++ ":" ++ pad2 secs
  else toString minutes ++ ":" ++ pad2 secs

/-- `format_pace(seconds_per_meter, distance_meters)`. -/
def format_pace (seconds_per_meter distance_meters : ℚ) : String :=
  if distance_meters = 0 then "--:--"
  else
    let pace_per_km := (seconds_per_meter * 1000) / 60
    let minutes := pyInt pace_per_km
    let seconds := pyInt ((pace_per_km - minutes) * 60)
    toString minutes ++ ":" ++ pad2 seconds

/-- Division guarded against a zero divisor, used to restate `format_pace`
with every division it performs made explicit (`none` would correspond to
a `ZeroDivisionError`). -/
def qdiv? (a b : ℚ) : Option ℚ := if b = 0 then none else some (a / b)

/-- `format_pace` with its one division routed through `qdiv?`. -/
def format_pace_checked (seconds_per_meter distance_meters : ℚ) : Option String :=
  if distance_meters = 0 then some "--:--"
  else
    (qdiv? (seconds_per_meter * 1000) 60).map fun pace_per_km =>
      let minutes := pyInt pace_per_km
      let seconds := pyInt ((pace_per_km - minutes) * 60)
      toString minutes ++ ":" ++ pad2 seconds

/-! ## Aggregators (`app.py` lines 291-407) -/

/-- The reference clock of one aggregation call: `datetime.now(tz)` as
epoch seconds, and the derived `now.replace(day=1, hour=0, ...)` month
start, passed explicitly (calendar arithmetic stays outside the model). -/
structure Clock where
  now : Int
  monthStart : Int
deriving DecidableEq

/-- Result dict of `parse_strava_data`; the empty-list branch omits the
`month_distance` and `week_count` keys, modelled by `none`. -/
structure SimpleStats where
  display_stat : String
  display_label : String
  streak : Nat
  month_distance : Option String
  week_count : Option Nat
deriving DecidableEq

/-- `parse_strava_data(activities)`. -/
def parse_strava_data (clock : Clock) (activities : List Activity) : SimpleStats :=
  match activities with
  | [] => ⟨"--", "Keine Daten", 0, none, none⟩
  | _ =>
      let streak := calculate_streak (dateOf clock.now) activities
      let month_activities := activities.filter fun a =>
        decide (clock.monthStart ≤ a.start_date)
      let month_distance : ℚ := (month_activities.map (fun a => a.distance)).sum / 1000
      let week_activities := activities.filter fun a =>
        decide (clock.now - 7 * 86400 ≤ a.start_date)
      let week_count := week_activities.length
      if 7 ≤ streak then
        ⟨toString streak, "DAY STREAK", streak, some (fmt1 month_distance), some week_count⟩
      else
        ⟨fmt1 month_distance, "KM MONAT", streak, some (fmt1 month_distance), some week_count⟩

/-- The `latest` sub-dict of `parse_strava_detailed`. -/
structure LatestData where
  distance : String
  time : String
  pace : String
  elevation : Int
deriving DecidableEq

/-- The `weekly` sub-dict of `parse_strava_detailed`. -/
structure WeeklyData where
  run : String
  ride : String
  swim : String
  total : String
deriving DecidableEq

/-- The `records` sub-dict of `parse_strava_detailed`. -/
structure Records where
  longest_run : String
  fastest_5k : String
  max_elevation : String
deriving DecidableEq

/-- The success dict of `parse_strava_detailed`. -/
structure DetailedStats where
  streak : Nat
  month_distance : String
  week_count : Nat
  latest : LatestData
  weekly : WeeklyData
  heatmap : List Bool
  records : Records
deriving DecidableEq

/-- `parse_strava_detailed` returns either `{"error": "No activities"}`
or the full statistics dict. -/
inductive DetailedResult where
  | err (msg : String)
  | ok (stats : DetailedStats)
deriving DecidableEq

/-- `parse_strava_detailed(activities)`. -/
def parse_strava_detailed (clock : Clock) (activities : List Activity) : DetailedResult :=
  match activities with
  | [] => .err "No activities"
  | latest :: _ =>
      let distance_km : ℚ := latest.distance / 1000
      let moving_time := latest.moving_time
      let latest_data : LatestData :=
        ⟨fmt1 distance_km, format_time moving_time,
         format_pace (moving_time : ℚ) latest.distance,
         pyRound (latest.total_elevation_gain.getD 0)⟩
      let week_activities := activities.filter fun a =>
        decide (clock.now - 7 * 86400 ≤ a.start_date)
      let run_distance : ℚ :=
        ((week_activities.filter fun a => a.type == "Run").map (fun a => a.distance)).sum / 1000
      let ride_distance : ℚ :=
        ((week_activities.filter fun a => a.type == "Ride").map (fun a => a.distance)).sum / 1000
      let swim_distance : ℚ :=
        ((week_activities.filter fun a => a.type == "Swim").map (fun a => a.distance)).sum / 1000
      let weekly_data : WeeklyData :=
        ⟨fmt1 run_distance, fmt1 ride_distance, fmt1 swim_distance,
         fmt1 (run_distance + ride_distance + swim_distance)⟩
      let heatmap := (List.range 7).map fun i =>
        activities.any fun a =>
          dateOf a.start_date == dateOf (clock.now - (6 - (i : Int)) * 86400)
      let runs := activities.filter fun a => a.type == "Run"
      let longest_run : ℚ := pyMax (runs.map fun a => a.distance) 0 / 1000
      let five_k_runs := runs.filter fun a =>
        decide (4500 ≤ a.distance) && decide (a.distance ≤ 5500)
      let fastest_5k_time : Option Int :=
        match five_k_runs.map (fun a => a.moving_time) with
        | [] => none
        | x :: xs => some (xs.foldl min x)
      let max_elevation : ℚ :=
        pyMax (activities.map fun a => a.total_elevation_gain.getD 0) 0
      let records : Records :=
        ⟨if 0 < longest_run then fmt1 longest_run ++ " km" else "--",
         match fastest_5k_time with
         | some t => if t ≠ 0 then format_time t else "--"
         | none => "--",
         if 0 < max_elevation then toString (pyRound max_elevation) ++ "m" else "--"⟩
      let month_activities := activities.filter fun a =>
        decide (clock.monthStart ≤ a.start_date)
      let month_distance : ℚ := (month_activities.map (fun a => a.distance)).sum / 1000
      .ok ⟨calculate_streak (dateOf clock.now) activities, fmt1 month_distance,
           week_activities.length, latest_data, weekly_data, heatmap, records⟩

/-! ## Source fetchers and their fallback records (`app.py` lines 412-626) -/

/-- Outcome of an HTTP call: a status code with the parsed JSON body, or
a raised exception (also covering an unparseable body). -/
inductive HttpOut (β : Type) where
  | resp (code : Nat) (body : β)
  | exn
deriving DecidableEq

/-- The failure cases of an HTTP call as the claims describe them:
a raised exception or a non-200 status. -/
def HttpOut.isFail {β : Type} : HttpOut β → Prop
  | .exn => True
  | .resp code _ => code ≠ 200

/-- Parsed METAR JSON; the readouts are nested `{value: x}` objects, so
the outer `Option` is the object and the inner one its `value` key. -/
structure MetarBody where
  station : Option String
  raw : Option String
  flight_rules : Option String
  wind_direction : Option (Option ℚ)
  wind_speed : Option (Option ℚ)
  temperature : Option (Option ℚ)
  dewpoint : Option (Option ℚ)
  visibility : Option (Option ℚ)
  altimeter : Option (Option ℚ)
deriving DecidableEq

/-- The normalized METAR record returned by `fetch_metar`. -/
structure MetarRecord where
  station : String
  raw : String
  flight_rules : String
  wind_direction : FVal
  wind_speed : FVal
  temperature : FVal
  dewpoint : FVal
  visibility : FVal
  altimeter : FVal
deriving DecidableEq

/-- `data.get(field, {}).get("value", "N/A")`. -/
def nestedVal (o : Option (Option ℚ)) : FVal :=
  match o with
  | some (some v) => .num v
  | _ => .str "N/A"

/-- The fallback record at the end of `fetch_metar`. -/
def metarFallback (station : String) : MetarRecord :=
  ⟨station, "METAR nicht verfügbar", "N/A", .str "N/A", .str "N/A", .str "N/A",
   .str "N/A", .str "N/A", .str "N/A"⟩

/-- `fetch_metar(station)` (underlying function of the cached wrapper). -/
def fetch_metar (station : String) (out : HttpOut MetarBody) : MetarRecord :=
  match out with
  | .resp code body =>
      if code = 200 then
        ⟨body.station.getD "N/A", body.raw.getD "Keine Daten verfügbar",
         body.flight_rules.getD "N/A", nestedVal body.wind_direction,
         nestedVal body.wind_speed, nestedVal body.temperature,
         nestedVal body.dewpoint, nestedVal body.visibility,
         nestedVal body.altimeter⟩
      else metarFallback station
  | .exn => metarFallback station

/-- Parsed TAF JSON (forecast periods kept abstract as strings). -/
structure TafBody where
  station : Option String
  raw : Option String
  forecast : Option (List String)
deriving DecidableEq

/-- The normalized TAF record returned by `fetch_taf`. -/
structure TafRecord where
  station : String
  raw : String
  forecast : List String
deriving DecidableEq

/-- The fallback record at the end of `fetch_taf`. -/
def tafFallback (station : String) : TafRecord :=
  ⟨station, "TAF nicht verfügbar", []⟩

/-- `fetch_taf(station)` (underlying function of the cached wrapper). -/
def fetch_taf (station : String) (out : HttpOut TafBody) : TafRecord :=
  match out with
  | .resp code body =>
      if code = 200 then
        ⟨body.station.getD station, body.raw.getD "TAF nicht verfügbar",
         body.forecast.getD []⟩
      else tafFallback station
  | .exn => tafFallback station

/-- Parsed APOD JSON. -/
structure ApodBody where
  media_type : Option String
  url : Option String
  title : Option String
  explanation : Option String
deriving DecidableEq

/-- The normalized APOD record returned by `fetch_nasa_apod`. -/
structure ApodRecord where
  title : String
  url : String
  media_type : String
  explanation : String
deriving DecidableEq

/-- The video-URL rewrite of `fetch_nasa_apod`: a `youtube.com/watch`
URL has its video id (the text between `v=` and the next `&`) spliced
into the embed form; any other URL passes through unchanged. -/
def youtubeRewrite (video_url : String) : String :=
  if (video_url.splitOn "youtube.com/watch").length > 1 then
    let video_id :=
      if (video_url.splitOn "v=").length > 1 then
        (((video_url.splitOn "v=").getD 1 "").splitOn "&").getD 0 ""
      else ""
    if video_id ≠ "" then "https://www.youtube.com/embed/" ++ video_id else video_url
  else video_url

/-- The hardcoded fallback image at the end of `fetch_nasa_apod`. -/
def apodHardcodedFallback : ApodRecord :=
  ⟨"Hubble Ultra Deep Field",
   "https://cdn.esahubble.org/archives/images/screen/heic0611b.jpg", "image",
   "Das Hubble Ultra Deep Field - ein Blick in die Tiefen des Universums."⟩

/-- `fetch_nasa_apod()`: try today's entry (validating an image URL with
a HEAD probe), then yesterday's entry if it is an image, then the
hardcoded fallback. -/
def fetch_nasa_apod (primary : HttpOut ApodBody) (headOut : HttpOut Unit)
    (yesterday : HttpOut ApodBody) : ApodRecord :=
  let tryPrimary : Option ApodRecord :=
    match primary with
    | .resp code body =>
        if code = 200 then
          if body.media_type.getD "image" = "video" then
            some ⟨body.title.getD "NASA Video", youtubeRewrite (body.url.getD ""),
                  "video", (body.explanation.getD "").take 150 ++ "..."⟩
          else
            match headOut with
            | .resp hc _ =>
                if hc = 200 then
                  some ⟨body.title.getD "NASA Bild", body.url.getD "", "image",
                        (body.explanation.getD "").take 150 ++ "..."⟩
                else none
            | .exn => none
        else none
    | .exn => none
  match tryPrimary with
  | some r => r
  | none =>
      match yesterday with
      | .resp code body =>
          if code = 200 ∧ body.media_type = some "image" then
            ⟨body.title.getD "NASA APOD (Yesterday)", body.url.getD "", "image",
             "Gestern: " ++ (body.explanation.getD "").take 140 ++ "..."⟩
          else apodHardcodedFallback
      | .exn => apodHardcodedFallback

/-- One EPIC image descriptor, together with the outcome of the HEAD
probe its archive URL would receive. -/
structure EpicItem where
  date : Option String
  image : Option String
  caption : Option String
  head : HttpOut Unit
deriving DecidableEq

/-- The normalized record returned by `fetch_nasa_epic`. -/
structure EpicRecord where
  caption : String
  url : String
  date : String
deriving DecidableEq

/-- The fallback record at the end of `fetch_nasa_epic`. -/
def epicFallback : EpicRecord :=
  ⟨"NASA Earth Observatory",
   "https://eoimages.gsfc.nasa.gov/images/imagerecords/73000/73909/world.topo.bathy.200412.3x5400x2700.jpg",
   "Archive Image"⟩

/-- `strptime(date_str, "%Y-%m-%d %H:%M:%S")` followed by
`strftime('%Y/%m/%d')`, as a shape-validated conversion; `none` stands
for the `ValueError` the parse would raise. -/
def epicDatePath (s : String) : Option String :=
  match s.splitOn " " with
  | [d, t] =>
      match d.splitOn "-" with
      | [y, m, dd] =>
          if (y ++ m ++ dd).all Char.isDigit ∧ y.length = 4 ∧ m.length = 2 ∧
             dd.length = 2 ∧ (t.splitOn ":").length = 3 then
            some (y ++ "/" ++ m ++ "/" ++ dd)
          else none
      | _ => none
  | _ => none

/-- One iteration of the EPIC candidate loop: a missing key, a failed
date parse, a HEAD exception or a non-200 HEAD moves on to the next
candidate. -/
def epicTry (item : EpicItem) : Option EpicRecord :=
  match item.date, item.image with
  | some ds, some img =>
      match epicDatePath ds with
      | some path =>
          match item.head with
          | .resp hc _ =>
              if hc = 200 then
                some ⟨item.caption.getD "Earth from Space",
                      "https://epic.gsfc.nasa.gov/archive/natural/" ++ path ++
                        "/jpg/" ++ img ++ ".jpg", ds⟩
              else none
          | .exn => none
      | none => none
  | _, _ => none

/-- The `for item in data[:3]` loop body of `fetch_nasa_epic`. -/
def epicLoop : List EpicItem → Option EpicRecord
  | [] => none
  | item :: rest =>
      match epicTry item with
      | some r => some r
      | none => epicLoop rest

/-- `fetch_nasa_epic()` (underlying function of the cached wrapper). -/
def fetch_nasa_epic (out : HttpOut (List EpicItem)) : EpicRecord :=
  match out with
  | .resp code items =>
      if code = 200 then (epicLoop (items.take 3)).getD epicFallback
      else epicFallback
  | .exn => epicFallback

/-- The `results` object of the sun-times JSON; each field is the parsed
UTC epoch time, `none` standing for a missing key or a string
`fromisoformat` would reject. -/
structure SunResults where
  sunrise : Option Int
  sunset : Option Int
deriving DecidableEq

/-- The sun-times JSON body; `results` itself may be missing. -/
structure SunBody where
  results : Option SunResults
deriving DecidableEq

/-- The record returned by `calculate_sun_moon_times`. -/
structure SunRecord where
  sunrise : String
  sunset : String
deriving DecidableEq

/-- The fallback record at the end of `calculate_sun_moon_times`. -/
def sunFallback : SunRecord := ⟨"──:──", "──:──"⟩

/-- `astimezone(tz).strftime("%H:%M")` with the zone's UTC offset (in
seconds) passed explicitly. -/
def renderHM (t : Int) (tzOffset : Int) : String :=
  let localSec := (t + tzOffset) % 86400
  pad2 (localSec / 3600) ++ ":" ++ pad2 ((localSec % 3600) / 60)

/-- `calculate_sun_moon_times()` (underlying function of the cached
wrapper). -/
def calculate_sun_moon_times (out : HttpOut SunBody) (tzOffset : Int) : SunRecord :=
  match out with
  | .resp code body =>
      if code = 200 then
        match body.results with
        | some r =>
            match r.sunrise, r.sunset with
            | some sr, some ss => ⟨renderHM sr tzOffset, renderHM ss tzOffset⟩
            | _, _ => sunFallback
        | none => sunFallback
      else sunFallback
  | .exn => sunFallback

/-! ## Strava JSON endpoints (`app.py` lines 790-812) -/

/-- Response of `/api/strava`: the no-data branch returns a JSON object
carrying the error key *and* placeholder data fields. -/
inductive ApiStravaResp where
  | errorResp (error display_stat display_label : String) (streak : Nat)
  | dataResp (d : SimpleStats)
deriving DecidableEq

/-- The JSON keys of an `/api/strava` response, in source order. -/
def apiStravaKeys : ApiStravaResp → List String
  | .errorResp .. => ["error", "display_stat", "display_label", "streak"]
  | .dataResp _ => ["display_stat", "display_label", "streak", "month_distance", "week_count"]

/-- `/api/strava` handler body, over the value `fetch_strava_activities()`
returned (`none` or the list; `if not activities` also catches `[]`). -/
def api_strava (activities : Option (List Activity)) (clock : Clock) : ApiStravaResp :=
  match activities with
  | none => .errorResp "No Strava data available" "--" "Keine Daten" 0
  | some [] => .errorResp "No Strava data available" "--" "Keine Daten" 0
  | some l => .dataResp (parse_strava_data clock l)

/-- Response of `/api/strava/detailed`. -/
inductive ApiDetailedResp where
  | errorResp (error : String)
  | dataResp (d : DetailedStats)
deriving DecidableEq

/-- The JSON keys of an `/api/strava/detailed` response. -/
def apiDetailedKeys : ApiDetailedResp → List String
  | .errorResp _ => ["error"]
  | .dataResp _ =>
      ["streak", "month_distance", "week_count", "latest", "weekly", "heatmap", "records"]

/-- `/api/strava/detailed` handler body. -/
def api_strava_detailed (activities : Option (List Activity)) (clock : Clock) :
    ApiDetailedResp :=
  match activities with
  | none => .errorResp "No Strava data available"
  | some [] => .errorResp "No Strava data available"
  | some l =>
      match parse_strava_detailed clock l with
      | .err m => .errorResp m
      | .ok s => .dataResp s

/-! ## Supporting lemmas for the streak characterization -/

/-- `.date()` extraction is monotone in the timestamp. -/
theorem dateOf_mono {a b : Int} (h : a ≤ b) : dateOf a ≤ dateOf b :=
  Int.ediv_le_ediv (by norm_num) h

/-- The accumulator of `streakLoop` only accumulates. -/
theorem streakLoop_add (l : List Activity) : ∀ (check : Int) (s : Nat),
    streakLoop check s l = s + streakLoop check 0 l := by
  induction l with
  | nil => intro check s; simp [streakLoop]
  | cons a rest ih =>
      intro check s
      by_cases h1 : dateOf a.start_date = check
      · simp only [streakLoop, if_pos h1]
        rw [ih (check - 1) (s + 1), ih (check - 1) (0 + 1)]
        omega
      · by_cases h2 : dateOf a.start_date < check
        · simp [streakLoop, h1, h2]
        · simp only [streakLoop, if_neg h1, if_neg h2]
          exact ih check s

/-- Membership through the descending insertion. -/
theorem mem_insertDesc (a x : Activity) (l : List Activity) :
    x ∈ insertDesc a l ↔ x = a ∨ x ∈ l := by
  induction l with
  | nil => simp [insertDesc]
  | cons b rest ih =>
      by_cases h : b.start_date < a.start_date
      · simp only [insertDesc, if_pos h, List.mem_cons]
      · simp only [insertDesc, if_neg h, List.mem_cons, ih]
        tauto

/-- Descending insertion preserves the descending order. -/
theorem insertDesc_pairwise (a : Activity) (l : List Activity)
    (h : l.Pairwise fun x y => y.start_date ≤ x.start_date) :
    (insertDesc a l).Pairwise fun x y => y.start_date ≤ x.start_date := by
  induction l with
  | nil => simp [insertDesc]
  | cons b rest ih =>
      rcases List.pairwise_cons.mp h with ⟨hb, hrest⟩
      by_cases hba : b.start_date < a.start_date
      · simp only [insertDesc, if_pos hba]
        refine List.pairwise_cons.mpr ⟨?_, h⟩
        intro y hy
        rcases List.mem_cons.mp hy with rfl | hy'
        · omega
        · have := hb y hy'; omega
      · simp only [insertDesc, if_neg hba]
        refine List.pairwise_cons.mpr ⟨?_, ih hrest⟩
        intro y hy
        rcases (mem_insertDesc a y rest).mp hy with rfl | hy'
        · omega
        · exact hb y hy'

/-- `sortDesc` sorts descending by start time. -/
theorem sortDesc_pairwise (l : List Activity) :
    (sortDesc l).Pairwise fun x y => y.start_date ≤ x.start_date := by
  suffices h : ∀ acc, acc.Pairwise (fun x y => y.start_date ≤ x.start_date) →
      (l.foldl (fun acc a => insertDesc a acc) acc).Pairwise
        fun x y => y.start_date ≤ x.start_date by
    exact h [] List.Pairwise.nil
  induction l with
  | nil => intro acc hacc; simpa using hacc
  | cons a rest ih =>
      intro acc hacc
      exact ih _ (insertDesc_pairwise a acc hacc)

/-- `sortDesc` permutes, so it preserves membership. -/
theorem mem_sortDesc (x : Activity) (l : List Activity) : x ∈ sortDesc l ↔ x ∈ l := by
  suffices h : ∀ acc, x ∈ l.foldl (fun acc a => insertDesc a acc) acc ↔ x ∈ acc ∨ x ∈ l by
    simpa using h []
  induction l with
  | nil => intro acc; simp
  | cons a rest ih =>
      intro acc
      simp only [List.foldl_cons, ih (insertDesc a acc), mem_insertDesc, List.mem_cons]
      tauto

/-- Day-level membership is unchanged by the sort. -/
theorem map_sortDesc_mem (x : Int) (l : List Activity) :
    x ∈ (sortDesc l).map (fun a => dateOf a.start_date) ↔
      x ∈ l.map fun a => dateOf a.start_date := by
  simp only [List.mem_map, mem_sortDesc]

/-- Characterization of the streak walk on a descending-sorted list:
every day counted (walking back from `check`) holds an activity, and the
first day past the count holds none. -/
theorem streakLoop_mem_spec (l : List Activity) : ∀ check : Int,
    (l.Pairwise fun x y => y.start_date ≤ x.start_date) →
    (∀ i : Nat, i < streakLoop check 0 l →
        (check - i) ∈ l.map fun a => dateOf a.start_date) ∧
      (check - (streakLoop check 0 l : Int)) ∉ l.map fun a => dateOf a.start_date := by
  induction l with
  | nil =>
      intro check _
      exact ⟨fun i hi => absurd hi (by simp [streakLoop]), by simp [streakLoop]⟩
  | cons a rest ih =>
      intro check hp
      rcases List.pairwise_cons.mp hp with ⟨hhead, hrest⟩
      by_cases h1 : dateOf a.start_date = check
      · have hloop : streakLoop check 0 (a :: rest) = 1 + streakLoop (check - 1) 0 rest := by
          simp only [streakLoop, if_pos h1]
          rw [streakLoop_add rest (check - 1) (0 + 1)]
        rcases ih (check - 1) hrest with ⟨ih1, ih2⟩
        rw [hloop]
        constructor
        · intro i hi
          rcases i with _ | j
          · simp only [Nat.cast_zero, sub_zero, List.map_cons, List.mem_cons]
            exact Or.inl h1.symm
          · have hj : j < streakLoop (check - 1) 0 rest := by omega
            have := ih1 j hj
            simp only [List.map_cons, List.mem_cons]
            right
            have harith : check - ((j + 1 : Nat) : Int) = check - 1 - (j : Int) := by
              push_cast; ring
            rwa [harith]
        · intro hmem
          rcases List.mem_cons.mp hmem with heq | hmem'
          · have heq' : check - ((1 + streakLoop (check - 1) 0 rest : Nat) : Int) =
                dateOf a.start_date := heq
            omega
          · have harith : check - ((1 + streakLoop (check - 1) 0 rest : Nat) : Int) =
                check - 1 - (streakLoop (check - 1) 0 rest : Int) := by
              push_cast; ring
            rw [harith] at hmem'
            exact ih2 hmem'
      · by_cases h2 : dateOf a.start_date < check
        · have hloop : streakLoop check 0 (a :: rest) = 0 := by
            simp [streakLoop, h1, h2]
          rw [hloop]
          refine ⟨fun i hi => absurd hi (by omega), ?_⟩
          intro hmem
          simp only [Nat.cast_zero, sub_zero, List.map_cons, List.mem_cons] at hmem
          rcases hmem with heq | hmem'
          · exact h1 heq.symm
          · rcases List.mem_map.mp hmem' with ⟨y, hy, hyd⟩
            have : dateOf y.start_date ≤ dateOf a.start_date := dateOf_mono (hhead y hy)
            omega
        · have hloop : streakLoop check 0 (a :: rest) = streakLoop check 0 rest := by
            simp [streakLoop, h1, h2]
          rcases ih check hrest with ⟨ih1, ih2⟩
          rw [hloop]
          constructor
          · intro i hi
            simp only [List.map_cons, List.mem_cons]
            exact Or.inr (ih1 i hi)
          · intro hmem
            rcases List.mem_cons.mp hmem with heq | hmem'
            · have heq' : check - ((streakLoop check 0 rest : Nat) : Int) =
                  dateOf a.start_date := heq
              omega
            · exact ih2 hmem'

/-! ## Claim theorems: the timed cache (C1, C9) -/

/-- **C1.** For a wrapped operation with TTL `ttl` and any argument key:
a call finding no stored entry invokes the underlying operation and
stores its result with the call's timestamp; a call finding an entry
stored strictly less than `ttl` seconds earlier returns the stored
result without invoking the operation and leaves the cache unchanged; a
call `ttl` seconds or more after the stored timestamp invokes the
operation again and overwrites the entry with the new result. -/
theorem timed_cache_ttl_spec {α : Type} (func : String → α) (ttl : Int)
    (cache : CacheMap α) (key : String) (now : Int) :
    (cache key = none →
      timedCall func ttl cache key now =
        (func key, Function.update cache key (some (func key, now)), true)) ∧
    (∀ r ts, cache key = some (r, ts) → now - ts < ttl →
      timedCall func ttl cache key now = (r, cache, false)) ∧
    (∀ r ts, cache key = some (r, ts) → ttl ≤ now - ts →
      timedCall func ttl cache key now =
        (func key, Function.update cache key (some (func key, now)), true)) := by
  refine ⟨fun h => ?_, fun r ts h hlt => ?_, fun r ts h hge => ?_⟩
  · simp [timedCall, h]
  · simp [timedCall, h, hlt]
  · simp only [timedCall, h]
    rw [if_neg (by omega)]

/-- Witness for C1 at a concrete first call (cache miss). -/
theorem timed_cache_ttl_spec_witness :
    timedCall (fun _ => (7 : Nat)) 300 (fun _ => none) "metar" 0 =
      (7, Function.update (fun _ => (none : Option (Nat × Int))) "metar" (some (7, 0)), true) :=
  (timed_cache_ttl_spec (fun _ => (7 : Nat)) 300 (fun _ => none) "metar" 0).1 rfl

/-- **C9.** After `clear_cache` the next call with any argument key
invokes the underlying operation and stores the fresh result, regardless
of what the cache held or how little time has elapsed. -/
theorem clear_cache_forces_invocation {α : Type} (func : String → α) (ttl : Int)
    (cache : CacheMap α) (key : String) (now : Int) :
    timedCall func ttl (clear_cache cache) key now =
      (func key, Function.update (clear_cache cache) key (some (func key, now)), true) := rfl

/-! ## Claim theorem: streak calculation (C3) -/

/-- **C3.** `calculate_streak` counts consecutive calendar days walking
backward from today: every day within the counted streak has at least
one activity (so a day with several activities is counted once) and the
first day past the count has none (the walk stops at the first gap, and
a record strictly earlier than the expected day cannot extend the
streak).  In particular, a list with activities today, yesterday and
three days ago (none on the day before yesterday) yields streak 2. -/
theorem calculate_streak_spec :
    (∀ (today : Int) (activities : List Activity),
      (∀ i : Nat, i < calculate_streak today activities →
        (today - i) ∈ activities.map fun a => dateOf a.start_date) ∧
      (today - (calculate_streak today activities : Int)) ∉
        activities.map fun a => dateOf a.start_date) ∧
    calculate_streak 20000
      [⟨20000 * 86400, 5000, 1800, "Run", none⟩,
       ⟨19999 * 86400 + 3600, 5000, 1800, "Run", none⟩,
       ⟨19997 * 86400 + 7200, 5000, 1800, "Run", none⟩] = 2 := by
  constructor
  · intro today activities
    match activities with
    | [] =>
        exact ⟨fun i hi => absurd hi (by simp [calculate_streak]),
               by simp [calculate_streak]⟩
    | a :: rest =>
        have hs := streakLoop_mem_spec (sortDesc (a :: rest)) today
          (sortDesc_pairwise (a :: rest))
        have hcalc : calculate_streak today (a :: rest) =
            streakLoop today 0 (sortDesc (a :: rest)) := rfl
        rw [hcalc]
        exact ⟨fun i hi => (map_sortDesc_mem _ _).mp (hs.1 i hi),
               fun hmem => hs.2 ((map_sortDesc_mem _ _).mpr hmem)⟩
  · rfl

/-- Witness for C3: the characterization applied to a singleton list
with one activity today places today among the activity days. -/
theorem calculate_streak_spec_witness :
    ((0 : Int) - ((0 : Nat) : Int)) ∈
      ([⟨0, 5000, 1800, "Run", none⟩] : List Activity).map
        (fun a => dateOf a.start_date) :=
  (calculate_streak_spec.1 0 [⟨0, 5000, 1800, "Run", none⟩]).1 0 (by decide)

/-! ## Claim theorems: the token provider (C4, C5) -/

/-- **C4.** `get_strava_token` performs a refresh exactly when no
(truthy) access token is stored or the current time has reached the
300-second safety window before the stored expiry; otherwise it returns
the stored token unchanged without refreshing.  In particular, a stored
token expiring 200 seconds from now triggers exactly one refresh call. -/
theorem get_strava_token_refresh_policy (cfg : StravaConfig) (st : TokenState)
    (now : Int) (out : RefreshOutcome) :
    ((get_strava_token cfg st now out).refreshes = 1 ↔
      (pyFalsy st.access = true ∨ st.expiry - 300 ≤ now)) ∧
    (pyFalsy st.access = false → now < st.expiry - 300 →
      get_strava_token cfg st now out = ⟨st.access, st, 0⟩) ∧
    (∀ t, st.access = some t → t ≠ "" → st.expiry = now + 200 →
      (get_strava_token cfg st now out).refreshes = 1) := by
  unfold get_strava_token
  by_cases h : pyFalsy st.access = true ∨ st.expiry - 300 ≤ now
  · rw [if_pos h]
    refine ⟨iff_of_true rfl h, fun hf hlt => ?_, fun t _ _ _ => rfl⟩
    rcases h with h | h
    · rw [hf] at h; exact absurd h (by simp)
    · omega
  · rw [if_neg h]
    refine ⟨iff_of_false (by simp) h, fun _ _ => rfl, fun t ht hne hexp => ?_⟩
    exact absurd (Or.inr (by omega)) h

/-- Witness for C4: a token stored as expiring in 200 seconds triggers
the refresh. -/
theorem get_strava_token_refresh_policy_witness :
    (get_strava_token ⟨"id", "secret", "rtok"⟩ ⟨some "tok", 500⟩ 300 .exn).refreshes = 1 :=
  (get_strava_token_refresh_policy ⟨"id", "secret", "rtok"⟩ ⟨some "tok", 500⟩
    300 .exn).2.2 "tok" rfl (by decide) rfl

/-- **C5 counterexample.** A 200 token-exchange response whose body
carries `access_token` but no `expires_at` makes `refresh_strava_token`
report failure (no token for the caller) while still mutating the stored
access token — a failing execution that changes the stored credential,
contradicting "only a successful refresh mutates the stored credential". -/
theorem refresh_partial_mutation_counterexample :
    refresh_strava_token ⟨"id", "secret", "rtok"⟩
        (.resp 200 (some ⟨some "new", none⟩)) ⟨some "old", 999⟩ =
      ⟨none, ⟨some "new", 999⟩⟩ ∧
    (⟨some "new", (999 : Int)⟩ : TokenState) ≠ ⟨some "old", 999⟩ :=
  ⟨rfl, by decide⟩

/-- **C5 (amended).** A token refresh that fails with a transport error
or a non-200 response leaves the stored token and expiry unchanged and
reports that no token is available (likewise when no refresh token is
configured); a 200 response whose body carries `access_token` but lacks
`expires_at` overwrites the stored access token, keeps the old expiry
and still reports no token; a fully successful refresh stores both
fields and returns the fresh token. -/
theorem refresh_strava_token_state_policy (cfg : StravaConfig)
    (st : TokenState) (out : RefreshOutcome) :
    (out = .exn → refresh_strava_token cfg out st = ⟨none, st⟩) ∧
    (∀ code body, out = .resp code body → code ≠ 200 →
      refresh_strava_token cfg out st = ⟨none, st⟩) ∧
    (cfg.refresh_token = "" → refresh_strava_token cfg out st = ⟨none, st⟩) ∧
    (∀ tok, cfg.refresh_token ≠ "" → out = .resp 200 (some ⟨some tok, none⟩) →
      refresh_strava_token cfg out st = ⟨none, ⟨some tok, st.expiry⟩⟩) ∧
    (∀ tok e, cfg.refresh_token ≠ "" → out = .resp 200 (some ⟨some tok, some e⟩) →
      refresh_strava_token cfg out st = ⟨some tok, ⟨some tok, e⟩⟩) := by
  refine ⟨fun h => ?_, fun code body h hne => ?_, fun h => ?_,
    fun tok hne h => ?_, fun tok e hne h => ?_⟩
  · subst h; unfold refresh_strava_token; split <;> rfl
  · subst h
    unfold refresh_strava_token
    split
    · rfl
    · simp only
      rw [if_neg hne]
  · simp [refresh_strava_token, h]
  · subst h; simp [refresh_strava_token, hne]
  · subst h; simp [refresh_strava_token, hne]

/-- Witness for C5: a concrete 500 response leaves a concrete state
untouched and yields no token. -/
theorem refresh_strava_token_state_policy_witness :
    refresh_strava_token ⟨"id", "secret", "rtok"⟩ (.resp 500 none) ⟨some "old", 7⟩ =
      ⟨none, ⟨some "old", 7⟩⟩ :=
  (refresh_strava_token_state_policy ⟨"id", "secret", "rtok"⟩ ⟨some "old", 7⟩
    (.resp 500 none)).2.1 500 none rfl (by decide)

/-! ## Claim theorem: the 401 refresh-and-retry policy (C6) -/

/-- **C6.** With a valid stored token (so the initial token lookup does
not itself refresh), a 401 on the activities GET causes exactly one
token refresh; if that refresh yields a token the GET is retried exactly
once (two GETs in total) and a rejected or failed retry yields the
failure result `None`; if the refresh fails the fetch reports failure
with no retry at all (a single GET). -/
theorem fetch_strava_activities_401_policy (cfg : StravaConfig) (st : TokenState)
    (now : Int) (tokenOut retryOut : RefreshOutcome) (second : HttpResult)
    (body : List Activity) (hf : pyFalsy st.access = false)
    (hexp : now < st.expiry - 300) :
    (fetch_strava_activities cfg st now tokenOut (.resp 401 body) retryOut second).refreshes = 1 ∧
    (pyFalsy (refresh_strava_token cfg retryOut st).token = false →
      (fetch_strava_activities cfg st now tokenOut (.resp 401 body) retryOut second).gets = 2 ∧
      (∀ c2 b2, second = .resp c2 b2 → c2 ≠ 200 →
        (fetch_strava_activities cfg st now tokenOut (.resp 401 body) retryOut
          second).result = none) ∧
      (second = .exn →
        (fetch_strava_activities cfg st now tokenOut (.resp 401 body) retryOut
          second).result = none)) ∧
    (pyFalsy (refresh_strava_token cfg retryOut st).token = true →
      (fetch_strava_activities cfg st now tokenOut (.resp 401 body) retryOut second).gets = 1 ∧
      (fetch_strava_activities cfg st now tokenOut (.resp 401 body) retryOut
        second).result = none) := by
  have hg : get_strava_token cfg st now tokenOut = ⟨st.access, st, 0⟩ := by
    unfold get_strava_token
    rw [if_neg]
    intro hcon
    rcases hcon with hcon | hcon
    · rw [hf] at hcon; exact absurd hcon (by simp)
    · omega
  unfold fetch_strava_activities
  rw [hg]
  simp only [hf, Bool.false_eq_true, if_false]
  by_cases hr : pyFalsy (refresh_strava_token cfg retryOut st).token = true
  · refine ⟨?_, fun hrf => ?_, fun _ => ?_⟩ <;>
      simp_all [fetch_strava_activities]
  · have hr' : pyFalsy (refresh_strava_token cfg retryOut st).token = false := by
      simpa using hr
    refine ⟨?_, fun _ => ⟨?_, fun c2 b2 h2 hne => ?_, fun h2 => ?_⟩, fun hrt => ?_⟩
    · rcases second with ⟨c2, b2⟩ | _
      · by_cases h200 : c2 = 200 <;> simp [hr', h200]
      · simp [hr']
    · rcases second with ⟨c2, b2⟩ | _
      · by_cases h200 : c2 = 200 <;> simp [hr', h200]
      · simp [hr']
    · subst h2; simp [hr', hne]
    · subst h2; simp [hr']
    · rw [hrt] at hr'; exact absurd hr' (by simp)

/-- Witness for C6: with a valid token, a 401 followed by a successful
refresh and a 403 retry gives one refresh, two GETs and a `None` result. -/
theorem fetch_strava_activities_401_policy_witness :
    (fetch_strava_activities ⟨"id", "secret", "rtok"⟩ ⟨some "tok", 10000⟩ 0 .exn
        (.resp 401 []) (.resp 200 (some ⟨some "new", some 99999⟩))
        (.resp 403 [])).refreshes = 1 ∧
    (fetch_strava_activities ⟨"id", "secret", "rtok"⟩ ⟨some "tok", 10000⟩ 0 .exn
        (.resp 401 []) (.resp 200 (some ⟨some "new", some 99999⟩))
        (.resp 403 [])).gets = 2 ∧
    (fetch_strava_activities ⟨"id", "secret", "rtok"⟩ ⟨some "tok", 10000⟩ 0 .exn
        (.resp 401 []) (.resp 200 (some ⟨some "new", some 99999⟩))
        (.resp 403 [])).result = none := by
  have h := fetch_strava_activities_401_policy ⟨"id", "secret", "rtok"⟩
    ⟨some "tok", 10000⟩ 0 .exn (.resp 200 (some ⟨some "new", some 99999⟩))
    (.resp 403 []) [] (by decide) (by decide)
  exact ⟨h.1, (h.2.1 (by decide)).1, (h.2.1 (by decide)).2.1 403 [] rfl (by decide)⟩

/-! ## Claim theorem: pace formatting (C10) -/

/-- **C10.** For every moving time and non-negative distance,
`format_pace` returns the sentinel "--:--" when the distance is exactly
0; otherwise its single division (by the constant 60) is never a
division by zero: the variant with every division checked always
produces a value and agrees with `format_pace` everywhere. -/
theorem format_pace_total (t d : ℚ) (hd : 0 ≤ d) :
    (format_pace_checked t d).isSome = true ∧
    format_pace_checked t d = some (format_pace t d) ∧
    (d = 0 → format_pace t d = "--:--") := by
  by_cases h : d = 0
  · subst h
    exact ⟨rfl, rfl, fun _ => rfl⟩
  · have h60 : (60 : ℚ) ≠ 0 := by norm_num
    refine ⟨?_, ?_, fun h0 => absurd h0 h⟩
    · simp [format_pace_checked, h, qdiv?, h60]
    · simp [format_pace_checked, format_pace, h, qdiv?, h60]

/-- Witness for C10 at a concrete run (1800 s over 5000 m). -/
theorem format_pace_total_witness :
    (format_pace_checked 1800 5000).isSome = true :=
  (format_pace_total 1800 5000 (by norm_num)).1

/-! ## Claim theorems: fetcher failure policy (C2) -/

/-- **C2 counterexample.** The activity-list fetcher returns the
error-typed result `None` to its caller when the activities GET answers
with a non-200, non-401 status (here 500), instead of returning a
fully-populated fallback record. -/
theorem fetch_strava_activities_none_counterexample :
    (fetch_strava_activities ⟨"id", "secret", "rtok"⟩ ⟨some "tok", 10000⟩ 0
        .exn (.resp 500 []) .exn .exn).result = none := rfl

/-- The EPIC candidate loop yields no record when every candidate fails
(missing key, unparseable date, or failed HEAD probe). -/
theorem epicLoop_none (l : List EpicItem) (h : ∀ item, item ∈ l → epicTry item = none) :
    epicLoop l = none := by
  induction l with
  | nil => rfl
  | cons item rest ih =>
      have ht := h item (List.mem_cons_self item rest)
      simp only [epicLoop, ht]
      exact ih fun it hit => h it (List.mem_cons_of_mem item hit)

/-- If the primary attempt of `fetch_nasa_apod` produces no record and
yesterday's entry is not a 200 image, the fetcher returns the hardcoded
fallback image. -/
theorem fetch_nasa_apod_fallback (primary : HttpOut ApodBody)
    (headOut : HttpOut Unit) (yesterday : HttpOut ApodBody)
    (hpr : (match primary with
        | HttpOut.resp code body =>
            if code = 200 then
              if body.media_type.getD "image" = "video" then
                some (⟨body.title.getD "NASA Video", youtubeRewrite (body.url.getD ""),
                      "video", (body.explanation.getD "").take 150 ++ "..."⟩ : ApodRecord)
              else
                match headOut with
                | .resp hc _ =>
                    if hc = 200 then
                      some ⟨body.title.getD "NASA Bild", body.url.getD "", "image",
                            (body.explanation.getD "").take 150 ++ "..."⟩
                    else none
                | .exn => none
            else none
        | HttpOut.exn => none) = none)
    (hy : ∀ code body, yesterday = HttpOut.resp code body →
      code ≠ 200 ∨ body.media_type ≠ some "image") :
    fetch_nasa_apod primary headOut yesterday = apodHardcodedFallback := by
  unfold fetch_nasa_apod
  rw [hpr]
  rcases yesterday with ⟨code, b⟩ | _
  · rcases hy code b rfl with hc | hm
    · simp [hc]
    · simp [hm]
  · rfl

/-- **C2 (amended).** The weather-report, forecast, daily-image,
earth-image and sun-times fetchers map every failure of the underlying
call — a raised exception, a non-200 status, or a missing expected
field — to a fully-populated record with sentinel values: exceptions and
non-200 responses yield the documented fallback record, a 200 weather or
forecast body lacking its fields yields per-field sentinels, a failing
image probe or an exhausted earth-image candidate list falls through to
the hardcoded fallback image, and sun times missing the `results`
object or either time yield the "──:──" sentinels; they never raise and
never return a partial or error-typed result.  The activity-list
fetcher instead returns `None` on failure (unusable token, unhandled
non-200 status, failed 401 retry, or exception), so its callers must
test for that. -/
theorem fetcher_fallback_policy :
    (∀ station out, out.isFail → fetch_metar station out = metarFallback station) ∧
    (∀ station, fetch_metar station
        (.resp 200 ⟨none, none, none, none, none, none, none, none, none⟩) =
      ⟨"N/A", "Keine Daten verfügbar", "N/A", .str "N/A", .str "N/A", .str "N/A",
       .str "N/A", .str "N/A", .str "N/A"⟩) ∧
    (∀ station out, out.isFail → fetch_taf station out = tafFallback station) ∧
    (∀ station, fetch_taf station (.resp 200 ⟨none, none, none⟩) = tafFallback station) ∧
    (∀ primary headOut yesterday, primary.isFail →
      (∀ code body, yesterday = HttpOut.resp code body →
        code ≠ 200 ∨ body.media_type ≠ some "image") →
      fetch_nasa_apod primary headOut yesterday = apodHardcodedFallback) ∧
    (∀ body headOut yesterday, body.media_type.getD "image" ≠ "video" →
      headOut.isFail →
      (∀ code b2, yesterday = HttpOut.resp code b2 →
        code ≠ 200 ∨ b2.media_type ≠ some "image") →
      fetch_nasa_apod (.resp 200 body) headOut yesterday = apodHardcodedFallback) ∧
    (∀ out, out.isFail → fetch_nasa_epic out = epicFallback) ∧
    (∀ items, (∀ item, item ∈ items.take 3 → epicTry item = none) →
      fetch_nasa_epic (.resp 200 items) = epicFallback) ∧
    (∀ out tzOffset, out.isFail → calculate_sun_moon_times out tzOffset = sunFallback) ∧
    (∀ tzOffset body, body.results = none →
      calculate_sun_moon_times (.resp 200 body) tzOffset = sunFallback) ∧
    (∀ tzOffset ss,
      calculate_sun_moon_times (.resp 200 ⟨some ⟨none, ss⟩⟩) tzOffset = sunFallback) ∧
    (∀ tzOffset sr,
      calculate_sun_moon_times (.resp 200 ⟨some ⟨sr, none⟩⟩) tzOffset = sunFallback) ∧
    (∀ cfg st now tokenOut retryOut second code body, code ≠ 200 → code ≠ 401 →
      (fetch_strava_activities cfg st now tokenOut (.resp code body) retryOut
        second).result = none) ∧
    (∀ cfg st now tokenOut retryOut second,
      (fetch_strava_activities cfg st now tokenOut .exn retryOut
        second).result = none) := by
  refine ⟨fun station out h => ?_, fun station => rfl,
    fun station out h => ?_, fun station => rfl,
    fun primary headOut yesterday hp hy => ?_,
    fun body headOut yesterday hmv hh hy => ?_,
    fun out h => ?_, fun items h => ?_,
    fun out tzOffset h => ?_, fun tzOffset body hb => ?_,
    fun tzOffset ss => ?_, fun tzOffset sr => ?_,
    fun cfg st now tokenOut retryOut second code body hne h401 => ?_,
    fun cfg st now tokenOut retryOut second => ?_⟩
  · rcases out with ⟨code, b⟩ | _
    · simp [fetch_metar, HttpOut.isFail] at h ⊢
      exact fun hc => absurd hc h
    · rfl
  · rcases out with ⟨code, b⟩ | _
    · simp [fetch_taf, HttpOut.isFail] at h ⊢
      exact fun hc => absurd hc h
    · rfl
  · refine fetch_nasa_apod_fallback primary headOut yesterday ?_ hy
    rcases primary with ⟨code, b⟩ | _
    · simp [HttpOut.isFail] at hp
      simp [hp]
    · rfl
  · refine fetch_nasa_apod_fallback (.resp 200 body) headOut yesterday ?_ hy
    rcases headOut with ⟨hc, u⟩ | _
    · simp [HttpOut.isFail] at hh
      simp [hmv, hh]
    · simp [hmv]
  · rcases out with ⟨code, items⟩ | _
    · simp [fetch_nasa_epic, HttpOut.isFail] at h ⊢
      exact fun hc => absurd hc h
    · rfl
  · simp [fetch_nasa_epic, epicLoop_none (items.take 3) h]
  · rcases out with ⟨code, b⟩ | _
    · simp [calculate_sun_moon_times, HttpOut.isFail] at h ⊢
      exact fun hc => absurd hc h
    · rfl
  · simp [calculate_sun_moon_times, hb]
  · rfl
  · rcases sr with _ | v <;> rfl
  · unfold fetch_strava_activities
    by_cases hfal : pyFalsy (get_strava_token cfg st now tokenOut).token = true
    · simp [hfal]
    · simp only [hfal, Bool.false_eq_true, if_false]
      simp [hne, h401]
  · unfold fetch_strava_activities
    by_cases hfal : pyFalsy (get_strava_token cfg st now tokenOut).token = true
    · simp [hfal]
    · simp only [hfal, Bool.false_eq_true, if_false]

/-- Witness for C2: the METAR fetcher maps a raised exception to its
fallback record. -/
theorem fetcher_fallback_policy_witness :
    fetch_metar "EDLP" .exn = metarFallback "EDLP" :=
  fetcher_fallback_policy.1 "EDLP" .exn trivial

/-! ## Claim theorems: empty-list aggregates (C7) -/

/-- **C7 counterexample.** On the empty activity list the detailed
aggregator does not return "--" records and an all-false heatmap: it
returns the error object `{"error": "No activities"}`; and the simple
aggregator omits the distance/count rollup keys instead of reporting
zeroes. -/
theorem empty_aggregates_counterexample :
    parse_strava_detailed ⟨0, 0⟩ [] = .err "No activities" ∧
    (parse_strava_data ⟨0, 0⟩ []).month_distance = none ∧
    (parse_strava_data ⟨0, 0⟩ []).week_count = none :=
  ⟨rfl, rfl, rfl⟩

/-- **C7 (amended).** On the empty activity list no aggregator throws:
`calculate_streak` returns 0; `parse_strava_data` returns the sentinel
record (display stat "--", label "Keine Daten", streak 0) with the
distance/count rollup keys omitted; and `parse_strava_detailed` returns
the explicit error object `{"error": "No activities"}` instead of
sentinel records and heatmap slots. -/
theorem empty_aggregates_spec (clock : Clock) (today : Int) :
    calculate_streak today [] = 0 ∧
    parse_strava_data clock [] = ⟨"--", "Keine Daten", 0, none, none⟩ ∧
    parse_strava_detailed clock [] = .err "No activities" :=
  ⟨rfl, rfl, rfl⟩

/-! ## Claim theorems: JSON endpoint shapes (C8) -/

/-- **C8 counterexample.** The `/api/strava` error response carries the
data fields `display_stat`, `display_label` and `streak` alongside the
`error` key, so an error object is not free of data fields. -/
theorem api_strava_error_keys_counterexample :
    "error" ∈ apiStravaKeys (api_strava none ⟨0, 0⟩) ∧
    "display_stat" ∈ apiStravaKeys (api_strava none ⟨0, 0⟩) ∧
    api_strava none ⟨0, 0⟩ =
      .errorResp "No Strava data available" "--" "Keine Daten" 0 :=
  ⟨by decide, by decide, rfl⟩

/-- **C8 (amended).** The Strava JSON endpoints return either an
aggregate or an explicit error object; the detailed endpoint's error
object carries the error key alone, while the simple endpoint's error
response carries the fixed placeholder fields (display stat "--", label
"Keine Daten", streak 0) alongside the error key; success responses
carry no error key. -/
theorem api_strava_endpoints_shape (activities : Option (List Activity))
    (clock : Clock) :
    ("error" ∈ apiDetailedKeys (api_strava_detailed activities clock) →
      apiDetailedKeys (api_strava_detailed activities clock) = ["error"]) ∧
    ("error" ∈ apiStravaKeys (api_strava activities clock) →
      api_strava activities clock =
        .errorResp "No Strava data available" "--" "Keine Daten" 0) ∧
    (∀ d, api_strava activities clock = .dataResp d →
      "error" ∉ apiStravaKeys (api_strava activities clock)) ∧
    (∀ d, api_strava_detailed activities clock = .dataResp d →
      "error" ∉ apiDetailedKeys (api_strava_detailed activities clock)) := by
  rcases activities with _ | ⟨_ | ⟨a, l⟩⟩
  · exact ⟨fun _ => rfl, fun _ => rfl, fun d hd => by simp [api_strava] at hd,
      fun d hd => by simp [api_strava_detailed] at hd⟩
  · exact ⟨fun _ => rfl, fun _ => rfl, fun d hd => by simp [api_strava] at hd,
      fun d hd => by simp [api_strava_detailed] at hd⟩
  · have hsimple : api_strava (some (a :: l)) clock =
        .dataResp (parse_strava_data clock (a :: l)) := rfl
    refine ⟨?_, ?_, fun d hd => ?_, fun d hd => ?_⟩
    · cases hdet : parse_strava_detailed clock (a :: l) with
      | err m => intro _; simp [api_strava_detailed, hdet, apiDetailedKeys]
      | ok s =>
          intro hmem
          simp [api_strava_detailed, hdet, apiDetailedKeys] at hmem
    · intro hmem
      rw [hsimple] at hmem
      simp [apiStravaKeys] at hmem
    · rw [hsimple]
      simp [apiStravaKeys]
    · cases hdet : parse_strava_detailed clock (a :: l) with
      | err m =>
          have herr : api_strava_detailed (some (a :: l)) clock = .errorResp m := by
            simp [api_strava_detailed, hdet]
          rw [herr] at hd
          exact absurd hd (by simp)
      | ok s => simp [api_strava_detailed, hdet, apiDetailedKeys]

/-- Witness for C8: on a `None` activities result the detailed endpoint's
error object carries the error key alone. -/
theorem api_strava_endpoints_shape_witness :
    apiDetailedKeys (api_strava_detailed none ⟨0, 0⟩) = ["error"] :=
  (api_strava_endpoints_shape none ⟨0, 0⟩).1 (by decide)
